import Mathlib

/-!
Verification of the frame-sampling and batched-analysis pipeline of the
visual-breakdown repository, as a shallow embedding in Lean.

Conventions of the embedding:
* Python floats are modelled as exact rationals (`ℚ`), Python ints as `ℤ`
  (or `ℕ` where the source value is a count that is always non-negative).
* `int(x)` (Python truncation toward zero) is `pyInt`.
* Exceptions are modelled by `Except PyError`; a Python function that
  catches exceptions and turns them into result dictionaries is modelled
  as a total function.
* Dictionaries whose keys may be absent are modelled as structures with
  `Option` fields (`none` = key absent).
* The external decoder (OpenCV capture) is modelled by `Video`: whether
  the file opens, its frame rate and frame count, and which per-index
  decode (`cap.read` after a seek) and image writes (`cv2.imwrite`)
  succeed.  The external inference API is modelled by oracle functions
  returning `Except String (String × ℕ)`: an error message, or the
  completion text together with the tokens used.
-/

/-- Python `int()` applied to a rational: truncation toward zero. -/
def pyInt (q : ℚ) : ℤ :=
  if 0 ≤ q then ⌊q⌋ else -⌊-q⌋

/-- Python `range(n)` for an `int` argument (empty when `n ≤ 0`), as integers. -/
def intRange (n : ℤ) : List ℤ :=
  (List.range n.toNat).map (fun (i : ℕ) => (i : ℤ))

/-- Exceptions raised by the modelled code (`raise ValueError(...)` and the
interpreter's `ZeroDivisionError`). -/
inductive PyError where
  | valueError (msg : String)
  | zeroDivisionError
deriving DecidableEq, Repr

/-- Model of one video file as seen through `cv2.VideoCapture`:
`openOk` is `cap.isOpened()`, `fps` is `CAP_PROP_FPS`, `totalFrames` is
`CAP_PROP_FRAME_COUNT`, `decodeOk i` tells whether `cap.read()` succeeds
after seeking to frame `i`, and `writeOk i` tells whether `cv2.imwrite`
succeeds for the frame decoded at index `i`. -/
structure Video where
  openOk : Bool
  fps : ℚ
  totalFrames : ℕ
  decodeOk : ℤ → Bool
  writeOk : ℤ → Bool

/-- One extracted frame: `ordinal` is the 1-based number embedded in the
persisted file name `frame_{i+1:02d}_{timestamp:.2f}s.jpg` (`i` being the
position in the selected-index list), `timestamp` is `frame_index / fps`. -/
structure SampledFrame where
  ordinal : ℕ
  timestamp : ℚ
  frameIndex : ℤ
deriving DecidableEq, Repr

/-- `analysis_frames` of `extract_fixed_frames` (video_utils.py line 34):
`int(fps * min(total_frames / fps, max_duration))`.  Only meaningful under
the `fps ≠ 0` guard of the caller. -/
def analysisFramesOf (v : Video) (max_duration : ℚ) : ℤ :=
  pyInt (v.fps * min ((v.totalFrames : ℚ) / v.fps) max_duration)

/-- `frame_indices` of `extract_fixed_frames` (video_utils.py lines 40-45):
all of `range(analysis_frames)` when `analysis_frames <= max_frames`, else
`int(i * analysis_frames / max_frames)` for `i in range(max_frames)`. -/
def frameIndicesOf (v : Video) (max_frames : ℤ) (max_duration : ℚ) : List ℤ :=
  let analysis_frames := analysisFramesOf v max_duration
  if analysis_frames ≤ max_frames then
    intRange analysis_frames
  else
    (intRange max_frames).map
      (fun (i : ℤ) => pyInt ((i : ℚ) * (analysis_frames : ℚ) / (max_frames : ℚ)))

/-- The extraction loop of `extract_fixed_frames` (video_utils.py lines 52-71):
enumerate the selected indices; for each, seek and decode (skip the index on
decode failure) and write the image (skip on write failure); a kept frame is
persisted under ordinal `i + 1` where `i` is the `enumerate` position. -/
def extractLoop (v : Video) (indices : List ℤ) : List SampledFrame :=
  (indices.enum.filter (fun p => v.decodeOk p.2 && v.writeOk p.2)).map
    (fun p => ⟨p.1 + 1, (p.2 : ℚ) / v.fps, p.2⟩)

deriving instance DecidableEq for Except

/-- Result of running `extract_fixed_frames`: the returned value or the raised
exception, together with whether `cap.release()` was executed before exit. -/
structure ExtractOutcome where
  result : Except PyError (List SampledFrame)
  released : Bool
deriving DecidableEq, Repr

/-- `extract_fixed_frames` (video_utils.py lines 6-75).  Raises `ValueError`
when the capture does not open; raises `ZeroDivisionError` at
`duration = total_frames / fps` when `fps == 0`; otherwise selects
`frameIndicesOf` and runs the extraction loop.  `cap.release()` (line 73) is
only reached on the normal path. -/
def extract_fixed_frames (v : Video) (max_frames : ℤ) (max_duration : ℚ) :
    ExtractOutcome :=
  if v.openOk = false then
    ⟨.error (.valueError "Error: Could not open video file"), false⟩
  else if v.fps = 0 then
    ⟨.error .zeroDivisionError, false⟩
  else
    ⟨.ok (extractLoop v (frameIndicesOf v max_frames max_duration)), true⟩

/-- `extract_frames` (video_utils.py lines 78-134), the interval-sampling
mode: scan frames sequentially from the start (modelled as indices
`0, ..., totalFrames - 1`), keep every index `k` with
`k % frame_interval == 0` where `frame_interval = int(fps * interval_seconds)`,
and persist it (skipped if the image write fails).  When `frame_interval`
is `0` and at least one frame is read, the first `frame_count % frame_interval`
raises `ZeroDivisionError`.  Items are `(timestamp, frame index)` pairs,
the index standing in for the persisted path. -/
def extract_frames (v : Video) (interval_seconds : ℚ) :
    Except PyError (List (ℚ × ℕ)) :=
  if v.openOk = false then
    .error (.valueError "Error: Could not open video file")
  else if v.fps = 0 then
    .error .zeroDivisionError
  else
    let frame_interval : ℤ := pyInt (v.fps * interval_seconds)
    if frame_interval = 0 ∧ v.totalFrames ≠ 0 then
      .error .zeroDivisionError
    else
      .ok (((List.range v.totalFrames).filter
          (fun (k : ℕ) => decide ((k : ℤ) % frame_interval = 0) && v.writeOk (k : ℤ))).map
        (fun (k : ℕ) => ((k : ℚ) / v.fps, k)))

/-- The specification's analysis frame count:
`floor(frameRate * min(videoDuration, maxDurationSeconds))` (spec §4.1 step 1). -/
def specAnalysisFrameCount (frameRate videoDuration maxDurationSeconds : ℚ) : ℤ :=
  ⌊frameRate * min videoDuration maxDurationSeconds⌋

/-! ### Helper lemmas about the Python modelling primitives -/

lemma pyInt_eq_floor {q : ℚ} (h : 0 ≤ q) : pyInt q = ⌊q⌋ :=
  if_pos h

lemma pyInt_nonpos {q : ℚ} (h : q ≤ 0) : pyInt q ≤ 0 := by
  unfold pyInt
  split
  · next h0 =>
      have hq : q = 0 := le_antisymm h h0
      simp [hq]
  · next _ =>
      have h0 : (0 : ℤ) ≤ ⌊-q⌋ := Int.floor_nonneg.mpr (by linarith)
      omega

lemma mem_intRange {n i : ℤ} : i ∈ intRange n ↔ 0 ≤ i ∧ i < n := by
  unfold intRange
  constructor
  · intro h
    obtain ⟨k, hk, rfl⟩ := List.mem_map.mp h
    have hk2 := List.mem_range.mp hk
    omega
  · intro h
    refine List.mem_map.mpr ⟨i.toNat, List.mem_range.mpr ?_, ?_⟩ <;> omega

lemma intRange_eq_nil {n : ℤ} (h : n ≤ 0) : intRange n = [] := by
  unfold intRange
  have hn : n.toNat = 0 := by omega
  simp [hn]

lemma intRange_length (n : ℤ) : (intRange n).length = n.toNat := by
  simp [intRange]

lemma intRange_pairwise (n : ℤ) : (intRange n).Pairwise (· < ·) := by
  unfold intRange
  exact List.pairwise_map.mpr ((List.pairwise_lt_range _).imp (by exact_mod_cast ·))

/-! ### Helper lemmas about `frameIndicesOf` -/

lemma analysisFramesOf_eq_spec (v : Video) (D : ℚ) (hfps : 0 < v.fps) (hD : 0 ≤ D) :
    analysisFramesOf v D = specAnalysisFrameCount v.fps ((v.totalFrames : ℚ) / v.fps) D := by
  unfold analysisFramesOf specAnalysisFrameCount
  exact pyInt_eq_floor
    (mul_nonneg hfps.le (le_min (div_nonneg (Nat.cast_nonneg _) hfps.le) hD))

lemma sparse_floor_lt {M A : ℤ} (hM : 0 < M) (hMA : M < A) {i j : ℤ}
    (hij : i < j) :
    ⌊(i : ℚ) * (A : ℚ) / (M : ℚ)⌋ < ⌊(j : ℚ) * (A : ℚ) / (M : ℚ)⌋ := by
  have hMq : (0 : ℚ) < (M : ℚ) := by exact_mod_cast hM
  have hAq : (M : ℚ) ≤ (A : ℚ) := by exact_mod_cast hMA.le
  have hA0 : (0 : ℚ) ≤ (A : ℚ) := le_trans hMq.le hAq
  have key : (i : ℚ) * A / M + 1 ≤ (j : ℚ) * A / M := by
    rw [div_add' _ _ _ hMq.ne']
    apply (div_le_div_iff_of_pos_right hMq).mpr
    have h3 : (i : ℚ) + 1 ≤ (j : ℚ) := by exact_mod_cast hij
    have h4 : ((i : ℚ) + 1) * A ≤ (j : ℚ) * A := mul_le_mul_of_nonneg_right h3 hA0
    nlinarith
  calc ⌊(i : ℚ) * A / M⌋ < ⌊(i : ℚ) * A / M⌋ + 1 := lt_add_one _
    _ = ⌊(i : ℚ) * A / M + 1⌋ := (Int.floor_add_one _).symm
    _ ≤ ⌊(j : ℚ) * A / M⌋ := Int.floor_le_floor key

lemma frameIndicesOf_pairwise (v : Video) (M : ℤ) (D : ℚ) :
    (frameIndicesOf v M D).Pairwise (· < ·) := by
  unfold frameIndicesOf
  by_cases h : analysisFramesOf v D ≤ M
  · simpa only [if_pos h] using intRange_pairwise _
  · simp only [if_neg h]
    push_neg at h
    rcases le_or_lt M 0 with hM | hM
    · rw [intRange_eq_nil hM]
      simp
    · apply List.pairwise_map.mpr
      refine (intRange_pairwise M).imp_of_mem ?_
      intro a b ha _ hab
      have ha0 : 0 ≤ a := (mem_intRange.mp ha).1
      have hb0 : 0 ≤ b := le_of_lt (lt_of_le_of_lt ha0 hab)
      have hA0 : (0 : ℤ) ≤ analysisFramesOf v D := le_of_lt (lt_trans hM h)
      rw [pyInt_eq_floor (div_nonneg
            (mul_nonneg (by exact_mod_cast ha0) (by exact_mod_cast hA0))
            (by exact_mod_cast hM.le)),
          pyInt_eq_floor (div_nonneg
            (mul_nonneg (by exact_mod_cast hb0) (by exact_mod_cast hA0))
            (by exact_mod_cast hM.le))]
      exact sparse_floor_lt hM h hab

lemma frameIndicesOf_length_le (v : Video) (M : ℤ) (D : ℚ) :
    (frameIndicesOf v M D).length ≤ M.toNat := by
  unfold frameIndicesOf
  by_cases h : analysisFramesOf v D ≤ M
  · simp only [if_pos h, intRange_length]
    omega
  · simp only [if_neg h, List.length_map, intRange_length, le_refl]

lemma frameIndicesOf_head (v : Video) (M : ℤ) (D : ℚ) (hM : 0 < M)
    (hMA : M < analysisFramesOf v D) :
    (frameIndicesOf v M D).head? = some 0 := by
  unfold frameIndicesOf
  simp only [if_neg (not_le.mpr hMA)]
  unfold intRange
  obtain ⟨k, hk⟩ : ∃ k, M.toNat = k + 1 := ⟨M.toNat - 1, by omega⟩
  rw [hk, List.range_succ_eq_map]
  simp [pyInt]

lemma frameIndicesOf_eq_nil_of_analysis_nonpos (v : Video) (M : ℤ) (D : ℚ)
    (h : analysisFramesOf v D ≤ 0) : frameIndicesOf v M D = [] := by
  unfold frameIndicesOf
  by_cases hm : analysisFramesOf v D ≤ M
  · simp only [if_pos hm]
    exact intRange_eq_nil h
  · simp only [if_neg hm]
    rw [intRange_eq_nil (by omega)]
    rfl

lemma frameIndicesOf_eq_nil_of_max_nonpos (v : Video) (M : ℤ) (D : ℚ)
    (hM : M ≤ 0) : frameIndicesOf v M D = [] := by
  unfold frameIndicesOf
  by_cases hm : analysisFramesOf v D ≤ M
  · simp only [if_pos hm]
    exact intRange_eq_nil (le_trans hm hM)
  · simp only [if_neg hm]
    rw [intRange_eq_nil hM]
    rfl

/-! ### Helper lemmas about `extractLoop` and `extract_fixed_frames` -/

lemma extract_fixed_frames_normal (v : Video) (M : ℤ) (D : ℚ)
    (hopen : v.openOk = true) (hfps : v.fps ≠ 0) :
    extract_fixed_frames v M D =
      ⟨.ok (extractLoop v (frameIndicesOf v M D)), true⟩ := by
  unfold extract_fixed_frames
  simp [hopen, hfps]

lemma enum_pairwise_fst (l : List ℤ) :
    l.enum.Pairwise (fun p q : ℕ × ℤ => p.1 < q.1) := by
  have hm : l.enum.map Prod.fst = List.range' 0 l.length := by
    rw [List.enum_eq_enumFrom, List.enumFrom_map_fst]
  have h := List.pairwise_lt_range' 0 l.length
  rw [← hm] at h
  exact List.pairwise_map.mp h

lemma enum_pairwise_snd (l : List ℤ) (hl : l.Pairwise (· < ·)) :
    l.enum.Pairwise (fun p q : ℕ × ℤ => p.2 < q.2) := by
  have h : (l.enum.map Prod.snd).Pairwise (· < ·) := by
    rw [List.enum_eq_enumFrom, List.enumFrom_map_snd]
    exact hl
  exact List.pairwise_map.mp h

lemma extractLoop_length_le (v : Video) (idxs : List ℤ) :
    (extractLoop v idxs).length ≤ idxs.length := by
  unfold extractLoop
  calc ((idxs.enum.filter _).map _).length
      = (idxs.enum.filter _).length := List.length_map _ _
    _ ≤ idxs.enum.length := List.length_filter_le _ _
    _ = idxs.length := List.enum_length

lemma extractLoop_ordinal_pairwise (v : Video) (idxs : List ℤ) :
    ((extractLoop v idxs).map SampledFrame.ordinal).Pairwise (· < ·) := by
  unfold extractLoop
  rw [List.map_map]
  apply List.pairwise_map.mpr
  refine ((enum_pairwise_fst idxs).filter _).imp ?_
  intro p q hpq
  show p.1 + 1 < q.1 + 1
  omega

lemma extractLoop_timestamp_pairwise (v : Video) (idxs : List ℤ)
    (hfps : 0 < v.fps) (hl : idxs.Pairwise (· < ·)) :
    ((extractLoop v idxs).map SampledFrame.timestamp).Pairwise (· < ·) := by
  unfold extractLoop
  rw [List.map_map]
  apply List.pairwise_map.mpr
  refine ((enum_pairwise_snd idxs hl).filter _).imp ?_
  intro p q hpq
  show (p.2 : ℚ) / v.fps < (q.2 : ℚ) / v.fps
  exact (div_lt_div_iff_of_pos_right hfps).mpr (by exact_mod_cast hpq)

lemma extractLoop_all_ok (v : Video) (idxs : List ℤ)
    (hd : ∀ i, v.decodeOk i = true) (hw : ∀ i, v.writeOk i = true) :
    (extractLoop v idxs).map SampledFrame.ordinal =
      List.range' 1 (extractLoop v idxs).length := by
  unfold extractLoop
  have hf : idxs.enum.filter (fun p => v.decodeOk p.2 && v.writeOk p.2) = idxs.enum :=
    List.filter_eq_self.mpr (by intro p _; simp [hd, hw])
  rw [hf, List.map_map]
  apply List.ext_getElem
  · simp
  · intro i h1 h2
    simp only [List.length_map, List.enum_length] at h1 h2
    simp [List.getElem_enum, List.getElem_range', Nat.add_comm]

/-! ### Sample videos used by witnesses and counterexamples -/

/-- Scenario video of spec §8 scenario B: 10 fps, 50 frames (5 s), everything
decodes and writes. -/
def vB : Video := ⟨true, 10, 50, fun _ => true, fun _ => true⟩

/-- A 1 fps, 3-frame video in which decoding frame index 1 fails. -/
def vC5 : Video := ⟨true, 1, 3, fun i => decide (i ≠ 1), fun _ => true⟩

/-- An openable video whose measured frame rate is zero. -/
def vZeroFps : Video := ⟨true, 0, 30, fun _ => true, fun _ => true⟩

/-- An openable video with positive frame rate and zero frames (zero duration). -/
def vZeroDuration : Video := ⟨true, 10, 0, fun _ => true, fun _ => true⟩

/-- C1: for every opened video with `fps > 0` and every `maxFrames > 0`, with
`analysisFrameCount = floor(fps * min(videoDuration, maxDurationSeconds))`
the selected index list is exactly `[0, analysisFrameCount)` when
`analysisFrameCount ≤ maxFrames`, and otherwise exactly
`floor(i * analysisFrameCount / maxFrames)` for `i in [0, maxFrames)`; the
selection is deterministic (it is a function), strictly monotonically
increasing, and in the sparse case starts with index 0. -/
theorem extract_fixed_frames_index_selection (v : Video) (M A : ℤ) (D : ℚ)
    (_hfps : 0 < v.fps) (hM : 0 < M)
    (hA : A = specAnalysisFrameCount v.fps ((v.totalFrames : ℚ) / v.fps) D) :
    (frameIndicesOf v M D =
        if A ≤ M then intRange A
        else (intRange M).map (fun (i : ℤ) => ⌊(i : ℚ) * (A : ℚ) / (M : ℚ)⌋)) ∧
    List.Pairwise (· < ·) (frameIndicesOf v M D) ∧
    (M < A → (frameIndicesOf v M D).head? = some 0) := by
  by_cases hq : 0 ≤ v.fps * min ((v.totalFrames : ℚ) / v.fps) D
  · -- non-negative analysis window: the code truncation is the spec floor
    have hAe : analysisFramesOf v D = A := by
      rw [hA]
      unfold analysisFramesOf specAnalysisFrameCount
      exact pyInt_eq_floor hq
    refine ⟨?_, frameIndicesOf_pairwise v M D, ?_⟩
    · unfold frameIndicesOf
      rw [hAe]
      by_cases h : A ≤ M
      · simp [h]
      · simp only [if_neg h]
        apply List.map_congr_left
        intro i hi
        have hi0 : 0 ≤ i := (mem_intRange.mp hi).1
        have hA0 : (0 : ℤ) ≤ A := by omega
        exact pyInt_eq_floor (div_nonneg
          (mul_nonneg (by exact_mod_cast hi0) (by exact_mod_cast hA0))
          (by exact_mod_cast hM.le))
    · intro hMA
      exact frameIndicesOf_head v M D hM (by omega)
  · -- negative analysis window: both the code and the claimed selection are empty
    push_neg at hq
    have hspec : A < 0 := by
      rw [hA]
      unfold specAnalysisFrameCount
      by_contra hcon
      push_neg at hcon
      exact absurd (Int.floor_nonneg.mp hcon) (not_le.mpr hq)
    have hcode : analysisFramesOf v D ≤ 0 := pyInt_nonpos hq.le
    have hnil := frameIndicesOf_eq_nil_of_analysis_nonpos v M D hcode
    refine ⟨?_, ?_, ?_⟩
    · rw [hnil, if_pos (by omega : A ≤ M)]
      exact (intRange_eq_nil (by omega)).symm
    · rw [hnil]
      simp
    · intro hMA
      omega

/-- C1 witness: spec §8 scenario B — 10 fps, 5 s video, 20 s cap, 20 frames:
`analysisFrameCount = 50 > 20`, so the sparse branch is taken. -/
theorem extract_fixed_frames_index_selection_witness :
    ((0 : ℚ) < vB.fps ∧ (0 : ℤ) < 20 ∧
      (50 : ℤ) = specAnalysisFrameCount vB.fps ((vB.totalFrames : ℚ) / vB.fps) 20) ∧
    ((frameIndicesOf vB 20 20 =
        if (50 : ℤ) ≤ 20 then intRange 50
        else (intRange 20).map (fun (i : ℤ) => ⌊(i : ℚ) * ((50 : ℤ) : ℚ) / ((20 : ℤ) : ℚ)⌋)) ∧
      List.Pairwise (· < ·) (frameIndicesOf vB 20 20) ∧
      ((20 : ℤ) < 50 → (frameIndicesOf vB 20 20).head? = some 0)) :=
  ⟨⟨by norm_num [vB], by decide,
      by norm_num [specAnalysisFrameCount, vB]⟩,
    extract_fixed_frames_index_selection vB 20 50 20 (by norm_num [vB]) (by decide)
      (by norm_num [specAnalysisFrameCount, vB])⟩

/-- C5 counterexample: on `vC5` (3 selected indices, decode of index 1 fails)
the extraction succeeds with two frames whose persisted ordinals are 1 and 3 —
not contiguous starting at 1 (`[1, 2]` would be `range' 1 2`). -/
theorem sampled_frame_ordinals_not_contiguous_cex :
    (extract_fixed_frames vC5 3 20).result =
      .ok [⟨1, 0, 0⟩, ⟨3, 2, 2⟩] ∧
    ([⟨1, 0, 0⟩, ⟨3, 2, 2⟩] : List SampledFrame).map SampledFrame.ordinal ≠
      List.range' 1 2 := by
  constructor
  · norm_num [extract_fixed_frames, vC5, extractLoop, frameIndicesOf,
      analysisFramesOf, pyInt, intRange, List.enum, List.enumFrom, List.filter]
  · decide

/-- C5 (amended): for every successful extraction the persisted ordinals are
strictly increasing (each is one plus the position of its source index in the
selected-index list), the timestamps are strictly increasing, and the count is
at most the requested `maxFrames`; the ordinals are contiguous starting at 1
when no selected index is skipped by a decode or write failure — but not in
general, since a skip leaves a gap in the numbering. -/
theorem extract_fixed_frames_collection_invariant (v : Video) (M : ℤ) (D : ℚ)
    (hopen : v.openOk = true) (hfps : 0 < v.fps) :
    ∃ frames, (extract_fixed_frames v M D).result = .ok frames ∧
      (frames.map SampledFrame.ordinal).Pairwise (· < ·) ∧
      (frames.map SampledFrame.timestamp).Pairwise (· < ·) ∧
      frames.length ≤ M.toNat ∧
      ((∀ i, v.decodeOk i = true) → (∀ i, v.writeOk i = true) →
        frames.map SampledFrame.ordinal = List.range' 1 frames.length) := by
  refine ⟨extractLoop v (frameIndicesOf v M D), ?_, ?_, ?_, ?_, ?_⟩
  · rw [extract_fixed_frames_normal v M D hopen hfps.ne']
  · exact extractLoop_ordinal_pairwise v _
  · exact extractLoop_timestamp_pairwise v _ hfps (frameIndicesOf_pairwise v M D)
  · exact le_trans (extractLoop_length_le v _) (frameIndicesOf_length_le v M D)
  · intro hd hw
    exact extractLoop_all_ok v _ hd hw

/-- C5 witness: the amended invariant instantiated on `vC5`. -/
theorem extract_fixed_frames_collection_invariant_witness :
    ∃ frames, (extract_fixed_frames vC5 3 20).result = .ok frames ∧
      (frames.map SampledFrame.ordinal).Pairwise (· < ·) ∧
      (frames.map SampledFrame.timestamp).Pairwise (· < ·) ∧
      frames.length ≤ (3 : ℤ).toNat ∧
      ((∀ i, vC5.decodeOk i = true) → (∀ i, vC5.writeOk i = true) →
        frames.map SampledFrame.ordinal = List.range' 1 frames.length) :=
  extract_fixed_frames_collection_invariant vC5 3 20 rfl (by norm_num [vC5])

/-- C8 counterexample: an openable video with `fps = 0` makes
`extract_fixed_frames` raise an uncaught `ZeroDivisionError` (at
`duration = total_frames / fps`), not an explicit "cannot open/measure"
`ValueError`. -/
theorem zero_fps_uncaught_arithmetic_error_cex :
    vZeroFps.openOk = true ∧
    (extract_fixed_frames vZeroFps 20 20).result = .error .zeroDivisionError ∧
    ∀ msg, (extract_fixed_frames vZeroFps 20 20).result ≠ .error (.valueError msg) := by
  refine ⟨rfl, by simp [extract_fixed_frames, vZeroFps], ?_⟩
  intro msg h
  rw [show (extract_fixed_frames vZeroFps 20 20).result = .error .zeroDivisionError
      from by simp [extract_fixed_frames, vZeroFps]] at h
  simp at h

/-- C8 (amended): on an openable video, a zero frame rate makes fixed-count
extraction raise an uncaught `ZeroDivisionError` before any frame selection,
and a zero-duration video (zero frames, positive fps) is not rejected at all:
extraction returns successfully with the empty list. -/
theorem extract_fixed_frames_zero_fps_or_zero_duration (v : Video) (M : ℤ) (D : ℚ) :
    (v.openOk = true → v.fps = 0 →
      (extract_fixed_frames v M D).result = .error .zeroDivisionError) ∧
    (v.openOk = true → 0 < v.fps → v.totalFrames = 0 →
      (extract_fixed_frames v M D).result = .ok []) := by
  constructor
  · intro hopen hfps
    unfold extract_fixed_frames
    simp [hopen, hfps]
  · intro hopen hfps htot
    rw [extract_fixed_frames_normal v M D hopen hfps.ne']
    have hmin : min ((v.totalFrames : ℚ) / v.fps) D ≤ 0 := by
      rw [htot]
      simp only [Nat.cast_zero, zero_div]
      exact min_le_left 0 D
    have hA : analysisFramesOf v D ≤ 0 := by
      unfold analysisFramesOf
      apply pyInt_nonpos
      calc v.fps * min ((v.totalFrames : ℚ) / v.fps) D
          ≤ v.fps * 0 := mul_le_mul_of_nonneg_left hmin hfps.le
        _ = 0 := mul_zero _
    rw [frameIndicesOf_eq_nil_of_analysis_nonpos v M D hA]
    rfl

/-- C8 witness: both amended behaviours at concrete videos. -/
theorem extract_fixed_frames_zero_fps_or_zero_duration_witness :
    (extract_fixed_frames vZeroFps 20 20).result = .error .zeroDivisionError ∧
    (extract_fixed_frames vZeroDuration 20 20).result = .ok [] :=
  ⟨(extract_fixed_frames_zero_fps_or_zero_duration vZeroFps 20 20).1 rfl rfl,
    (extract_fixed_frames_zero_fps_or_zero_duration vZeroDuration 20 20).2 rfl
      (by norm_num [vZeroDuration]) rfl⟩

/-- C9 counterexample: on the openable zero-fps video the operation exits with
an exception and `cap.release()` is never executed: the opened handle is not
released on this error path. -/
theorem release_skipped_on_error_cex :
    vZeroFps.openOk = true ∧
    (extract_fixed_frames vZeroFps 20 20).result = .error .zeroDivisionError ∧
    (extract_fixed_frames vZeroFps 20 20).released = false := by
  refine ⟨rfl, ?_, ?_⟩ <;> simp [extract_fixed_frames, vZeroFps]

/-- C9 (amended): the capture is released exactly on the normal exit path
(the video opens and its frame rate is non-zero); on the exception paths no
release happens before the error propagates. -/
theorem extract_fixed_frames_release_iff_normal_exit (v : Video) (M : ℤ) (D : ℚ) :
    (extract_fixed_frames v M D).released = true ↔
      (v.openOk = true ∧ v.fps ≠ 0) := by
  unfold extract_fixed_frames
  cases hvo : v.openOk
  · simp [hvo]
  · by_cases h2 : v.fps = 0 <;> simp [h2]

/-- C10: on every openable video with positive frame rate, `maxFrames ≤ 0` is
not rejected: extraction raises nothing, selects the empty index range, and
returns the empty list (the handle is released normally). -/
theorem extract_fixed_frames_nonpositive_max_frames (v : Video) (M : ℤ) (D : ℚ)
    (hopen : v.openOk = true) (hfps : 0 < v.fps) (hM : M ≤ 0) :
    extract_fixed_frames v M D = ⟨.ok [], true⟩ := by
  rw [extract_fixed_frames_normal v M D hopen hfps.ne',
      frameIndicesOf_eq_nil_of_max_nonpos v M D hM]
  rfl

/-- C10 witness: `maxFrames = 0` on scenario video `vB`. -/
theorem extract_fixed_frames_nonpositive_max_frames_witness :
    extract_fixed_frames vB 0 20 = ⟨.ok [], true⟩ :=
  extract_fixed_frames_nonpositive_max_frames vB 0 20 rfl (by norm_num [vB]) (by decide)

/-! ### C7: interval sampling -/

/-- A 30 fps, 4-frame video with all decodes and writes succeeding. -/
def vC7 : Video := ⟨true, 30, 4, fun _ => true, fun _ => true⟩

/-- C7 counterexample: with `fps = 30` and `intervalSeconds = 1/20`,
`round(fps * intervalSeconds) = round(1.5) = 2`, so the claimed selection is
the multiples of 2; the code truncates (`int(1.5) = 1`) and selects every
index — in particular index 1, which is not a multiple of 2. -/
theorem interval_sampling_round_cex :
    round ((30 : ℚ) * (1 / 20)) = 2 ∧
    extract_frames vC7 (1 / 20) =
      .ok [(0, 0), (1 / 30, 1), (1 / 15, 2), (1 / 10, 3)] ∧
    ¬ ((2 : ℤ) ∣ (1 : ℤ)) := by
  refine ⟨?_, ?_, by decide⟩
  · rw [round_eq]
    norm_num
  · norm_num [extract_frames, vC7, pyInt, List.filter]

/-- C7 (amended): for an openable video with `fps > 0` (and succeeding image
writes), interval sampling selects exactly the frame indices below the frame
count that are multiples of `int(fps * intervalSeconds)` — truncation toward
zero, not rounding — scanning frame-by-frame with no upper bound on the
count, provided the truncated interval is non-zero; when it is zero and at
least one frame is read, the scan instead raises an uncaught
`ZeroDivisionError` at the first modulo. -/
theorem extract_frames_interval_selection (v : Video) (s : ℚ)
    (hopen : v.openOk = true) (hfps : 0 < v.fps)
    (hw : ∀ i, v.writeOk i = true) :
    (pyInt (v.fps * s) ≠ 0 →
      extract_frames v s =
        .ok (((List.range v.totalFrames).filter
            (fun (k : ℕ) => decide (pyInt (v.fps * s) ∣ (k : ℤ)))).map
          (fun (k : ℕ) => ((k : ℚ) / v.fps, k)))) ∧
    (pyInt (v.fps * s) = 0 → v.totalFrames ≠ 0 →
      extract_frames v s = .error .zeroDivisionError) := by
  have h1 : ¬(v.openOk = false) := by simp [hopen]
  constructor
  · intro hd
    have hcond : ¬(pyInt (v.fps * s) = 0 ∧ v.totalFrames ≠ 0) := fun h => hd h.1
    unfold extract_frames
    rw [if_neg h1, if_neg hfps.ne', if_neg hcond]
    apply congrArg Except.ok
    apply congrArg (List.map _)
    apply List.filter_congr
    intro k _
    rw [hw, Bool.and_true]
    simp only [decide_eq_decide]
    constructor
    · intro h
      exact Int.dvd_of_emod_eq_zero h
    · intro h
      exact Int.emod_eq_zero_of_dvd h
  · intro hd htot
    have hcond : pyInt (v.fps * s) = 0 ∧ v.totalFrames ≠ 0 := ⟨hd, htot⟩
    unfold extract_frames
    rw [if_neg h1, if_neg hfps.ne', if_pos hcond]

/-- C7 witness: the amended selection on `vC7` with `intervalSeconds = 1/20`
(truncated interval 1), and the `ZeroDivisionError` branch with
`intervalSeconds = 0`. -/
theorem extract_frames_interval_selection_witness :
    (extract_frames vC7 (1 / 20) =
      .ok (((List.range vC7.totalFrames).filter
          (fun (k : ℕ) => decide (pyInt (vC7.fps * (1 / 20)) ∣ (k : ℤ)))).map
        (fun (k : ℕ) => ((k : ℚ) / vC7.fps, k)))) ∧
    extract_frames vC7 0 = .error .zeroDivisionError :=
  ⟨(extract_frames_interval_selection vC7 (1 / 20) rfl (by norm_num [vC7])
      (fun _ => rfl)).1 (by norm_num [vC7, pyInt]),
    (extract_frames_interval_selection vC7 0 rfl (by norm_num [vC7])
      (fun _ => rfl)).2 (by norm_num [vC7, pyInt]) (by decide)⟩

/-! ### C2: per-frame analysis and the batch scheduler (gpt_utils.py) -/

/-- The per-frame analysis dictionary built by `analyze_frame_async`
(gpt_utils.py lines 164-220): on success `{success, description, tokens_used}`
(plus a model tag, omitted here); on any exception
`{success: false, error, description: "Error analyzing frame: ..."}`. -/
structure FrameAnalysis where
  success : Bool
  description : String
  tokens_used : Option ℕ
  error : Option String
deriving DecidableEq, Repr

/-- `analyze_frame_async`: one oracle call, every exception caught at this
boundary and converted into a `success: false` dictionary. -/
def analyze_frame_async {α : Type} (o : α → Except String (String × ℕ))
    (p : α) : FrameAnalysis :=
  match o p with
  | .ok r => ⟨true, r.1, some r.2, none⟩
  | .error e => ⟨false, "Error analyzing frame: " ++ e, none, some e⟩

/-- The merged result dictionary of `analyze_multiple_frames_async`
(gpt_utils.py lines 254-260): `{timestamp, frame_path, frame_number,
**analysis_result}`. -/
structure FrameResult (α : Type) where
  timestamp : ℚ
  frame_path : α
  frame_number : ℕ
  success : Bool
  description : String
  tokens_used : Option ℕ
  error : Option String
deriving DecidableEq, Repr

/-- Attach the batch metadata to a per-frame analysis: `frame_number` is the
global input position plus one. -/
def withFrameMeta {α : Type} (ts : ℚ) (p : α) (idx : ℕ) (a : FrameAnalysis) :
    FrameResult α :=
  ⟨ts, p, idx + 1, a.success, a.description, a.tokens_used, a.error⟩

/-- One batched item: analyze the frame at global position `idx`. -/
def mkFrameResult {α : Type} (o : α → Except String (String × ℕ)) (idx : ℕ)
    (f : ℚ × α) : FrameResult α :=
  withFrameMeta f.1 f.2 idx (analyze_frame_async o f.2)

/-- The chunk loop of `analyze_multiple_frames_async` (gpt_utils.py lines
238-273): slice off `batch_size` frames (`frame_data[i:i+batch_size]`), issue
their calls, zip the results back in input order with `frame_number = i+j+1`,
then continue with the rest.  Matches the Python loop for every
`batch_size ≥ 1`; `batch_size = 0` is rejected by the wrapper. -/
def analyzeChunks {α : Type} (o : α → Except String (String × ℕ)) (b : ℕ) :
    List (ℚ × α) → ℕ → List (FrameResult α)
  | [], _ => []
  | f :: rest, ofs =>
      ((f :: rest.take (b - 1)).enum.map
          (fun (ji : ℕ × (ℚ × α)) => mkFrameResult o (ofs + ji.1) ji.2))
        ++ analyzeChunks o b (rest.drop (b - 1)) (ofs + b)
  termination_by l _ => l.length
  decreasing_by simp only [List.length_drop, List.length_cons]; omega

/-- `analyze_multiple_frames_async` (gpt_utils.py lines 222-274).
`range(0, total, 0)` raises `ValueError` in Python; a negative step yields an
empty range, so a negative batch size returns no results at all. -/
def analyze_multiple_frames_async {α : Type}
    (o : α → Except String (String × ℕ)) (frame_data : List (ℚ × α))
    (batch_size : ℤ) : Except PyError (List (FrameResult α)) :=
  if batch_size = 0 then
    .error (.valueError "range() arg 3 must not be zero")
  else if batch_size < 0 then
    .ok []
  else
    .ok (analyzeChunks o batch_size.toNat frame_data 0)

/-- Reference form of the scheduler's output: one result per input frame, in
input order, with consecutive global positions starting at `ofs`. -/
def resultsFrom {α : Type} (o : α → Except String (String × ℕ)) :
    ℕ → List (ℚ × α) → List (FrameResult α)
  | _, [] => []
  | ofs, f :: rest => mkFrameResult o ofs f :: resultsFrom o (ofs + 1) rest

lemma resultsFrom_append_take_drop {α : Type} (o : α → Except String (String × ℕ)) :
    ∀ (l : List (ℚ × α)) (b ofs : ℕ),
      resultsFrom o ofs l =
        resultsFrom o ofs (l.take b) ++ resultsFrom o (ofs + b) (l.drop b) := by
  intro l
  induction l with
  | nil => intro b ofs; simp [resultsFrom]
  | cons x xs ih =>
      intro b ofs
      cases b with
      | zero => simp [resultsFrom]
      | succ b' =>
          simp only [List.take_succ_cons, List.drop_succ_cons, resultsFrom,
            List.cons_append]
          rw [ih b' (ofs + 1)]
          have : ofs + 1 + b' = ofs + (b' + 1) := by omega
          rw [this]

lemma enumMap_eq_resultsFrom {α : Type} (o : α → Except String (String × ℕ)) :
    ∀ (l : List (ℚ × α)) (ofs : ℕ),
      l.enum.map (fun (ji : ℕ × (ℚ × α)) => mkFrameResult o (ofs + ji.1) ji.2)
        = resultsFrom o ofs l := by
  intro l
  induction l with
  | nil => intro ofs; rfl
  | cons x xs ih =>
      intro ofs
      rw [List.enum_cons']
      simp only [List.map_cons, List.map_map, Nat.add_zero, resultsFrom]
      congr 1
      rw [← ih (ofs + 1)]
      apply List.map_congr_left
      intro ji _
      simp only [Function.comp_apply, Prod.map_fst, Prod.map_snd, id_eq]
      have : ofs + (ji.1 + 1) = ofs + 1 + ji.1 := by omega
      rw [this]

lemma analyzeChunks_eq_resultsFrom {α : Type} (o : α → Except String (String × ℕ))
    (b : ℕ) (hb : 1 ≤ b) :
    ∀ (l : List (ℚ × α)) (ofs : ℕ), analyzeChunks o b l ofs = resultsFrom o ofs l := by
  suffices H : ∀ (n : ℕ) (l : List (ℚ × α)) (ofs : ℕ), l.length ≤ n →
      analyzeChunks o b l ofs = resultsFrom o ofs l by
    intro l ofs
    exact H l.length l ofs le_rfl
  intro n
  induction n with
  | zero =>
      intro l ofs hlen
      have : l = [] := List.eq_nil_of_length_eq_zero (by omega)
      subst this
      simp [analyzeChunks, resultsFrom]
  | succ n ih =>
      intro l ofs hlen
      cases l with
      | nil => simp [analyzeChunks, resultsFrom]
      | cons f rest =>
          rw [analyzeChunks, enumMap_eq_resultsFrom,
            ih (rest.drop (b - 1)) (ofs + b) (by simp [List.length_drop]; simp at hlen; omega)]
          have h1 : (f :: rest).take b = f :: rest.take (b - 1) := by
            obtain ⟨b', rfl⟩ : ∃ b', b = b' + 1 := ⟨b - 1, by omega⟩
            simp
          have h2 : (f :: rest).drop b = rest.drop (b - 1) := by
            obtain ⟨b', rfl⟩ : ∃ b', b = b' + 1 := ⟨b - 1, by omega⟩
            simp
          rw [← h1, ← h2, ← resultsFrom_append_take_drop]

lemma resultsFrom_length {α : Type} (o : α → Except String (String × ℕ)) :
    ∀ (l : List (ℚ × α)) (ofs : ℕ), (resultsFrom o ofs l).length = l.length := by
  intro l
  induction l with
  | nil => intro ofs; rfl
  | cons x xs ih => intro ofs; simp [resultsFrom, ih]

lemma resultsFrom_get? {α : Type} (o : α → Except String (String × ℕ)) :
    ∀ (l : List (ℚ × α)) (ofs k : ℕ),
      (resultsFrom o ofs l).get? k = (l.get? k).map (mkFrameResult o (ofs + k)) := by
  intro l
  induction l with
  | nil => intro ofs k; cases k <;> rfl
  | cons x xs ih =>
      intro ofs k
      cases k with
      | zero => rfl
      | succ k' =>
          simp only [resultsFrom, List.get?_cons_succ]
          rw [ih (ofs + 1) k']
          have : ofs + 1 + k' = ofs + (k' + 1) := by omega
          rw [this]

/-- C2: for every frame list and every `batchSize > 0`, the batch scheduler
returns exactly one result per input frame, in input order, with
`frame_number = k + 1` for input position `k`; the result at position `k` is a
function of input `k` and the oracle's answer for that frame alone (so one
frame's failure leaves every other result unchanged); and the per-frame
analyzer never lets an exception escape: an oracle error becomes a
`success: false` result carrying the error message, an oracle success a
`success: true` result. -/
theorem analyze_multiple_frames_order_and_isolation {α : Type}
    (o : α → Except String (String × ℕ)) (frame_data : List (ℚ × α)) (B : ℤ)
    (hB : 0 < B) :
    analyze_multiple_frames_async o frame_data B = .ok (resultsFrom o 0 frame_data) ∧
    (resultsFrom o 0 frame_data).length = frame_data.length ∧
    (∀ k, (resultsFrom o 0 frame_data).get? k =
      (frame_data.get? k).map
        (fun f => withFrameMeta f.1 f.2 k (analyze_frame_async o f.2))) ∧
    (∀ (ts : ℚ) (p : α) (k : ℕ) (a : FrameAnalysis),
      (withFrameMeta ts p k a).frame_number = k + 1 ∧
      (withFrameMeta ts p k a).timestamp = ts ∧
      (withFrameMeta ts p k a).success = a.success) ∧
    (∀ p e, o p = .error e →
      analyze_frame_async o p =
        ⟨false, "Error analyzing frame: " ++ e, none, some e⟩) ∧
    (∀ p d t, o p = .ok (d, t) →
      analyze_frame_async o p = ⟨true, d, some t, none⟩) := by
  refine ⟨?_, resultsFrom_length o frame_data 0, ?_, ?_, ?_, ?_⟩
  · unfold analyze_multiple_frames_async
    rw [if_neg (by omega), if_neg (by omega),
      analyzeChunks_eq_resultsFrom o B.toNat (by omega) frame_data 0]
  · intro k
    rw [resultsFrom_get? o frame_data 0 k, Nat.zero_add]
    rfl
  · intro ts p k a
    exact ⟨rfl, rfl, rfl⟩
  · intro p e h
    unfold analyze_frame_async
    rw [h]
  · intro p d t h
    unfold analyze_frame_async
    rw [h]

/-- Frame-analysis oracle used by witnesses: fails on frame 0, succeeds on
every other frame. -/
def sampleFrameOracle : ℕ → Except String (String × ℕ) :=
  fun n => if n = 0 then .error "boom" else .ok ("desc", n)

/-- Three input frames for the scheduler witnesses. -/
def sampleFrameData : List (ℚ × ℕ) := [(0, 0), (1, 1), (2, 2)]

/-- C2 witness: three frames, batch size 2, the oracle failing on the first
frame only. -/
theorem analyze_multiple_frames_order_and_isolation_witness :
    analyze_multiple_frames_async sampleFrameOracle sampleFrameData 2 =
      .ok (resultsFrom sampleFrameOracle 0 sampleFrameData) ∧
    (resultsFrom sampleFrameOracle 0 sampleFrameData).length =
      sampleFrameData.length ∧
    (∀ k, (resultsFrom sampleFrameOracle 0 sampleFrameData).get? k =
      (sampleFrameData.get? k).map
        (fun f => withFrameMeta f.1 f.2 k (analyze_frame_async sampleFrameOracle f.2))) ∧
    (∀ (ts : ℚ) (p : ℕ) (k : ℕ) (a : FrameAnalysis),
      (withFrameMeta ts p k a).frame_number = k + 1 ∧
      (withFrameMeta ts p k a).timestamp = ts ∧
      (withFrameMeta ts p k a).success = a.success) ∧
    (∀ p e, sampleFrameOracle p = .error e →
      analyze_frame_async sampleFrameOracle p =
        ⟨false, "Error analyzing frame: " ++ e, none, some e⟩) ∧
    (∀ p d t, sampleFrameOracle p = .ok (d, t) →
      analyze_frame_async sampleFrameOracle p = ⟨true, d, some t, none⟩) :=
  analyze_multiple_frames_order_and_isolation sampleFrameOracle sampleFrameData 2
    (by decide)

/-! ### C3/C4: video summary and the similarity engine
(gpt_utils.py lines 276-366, similarity_analyzer.py) -/

/-- The dictionary returned by `generate_comprehensive_summary`:
`{success, summary, error, tokens_used, frames_analyzed}`, with `none` for
absent keys (the model tag is omitted). -/
structure SummaryResult where
  success : Bool
  summary : Option String
  error : Option String
  tokens_used : Option ℕ
  frames_analyzed : Option ℕ
deriving DecidableEq, Repr

/-- `generate_comprehensive_summary` (gpt_utils.py lines 276-366): filter the
frame results to the successful ones; with none, return a failure dictionary
without calling the oracle; otherwise make exactly one completion call.  The
second component counts the oracle calls made. -/
def generate_comprehensive_summary {α : Type} (o : Except String (String × ℕ))
    (frame_analyses : List (FrameResult α)) : SummaryResult × ℕ :=
  let successful := frame_analyses.filter (fun r => r.success)
  if successful.isEmpty then
    (⟨false, none, some "No successful frame analyses to summarize", none, none⟩, 0)
  else
    match o with
    | .ok r => (⟨true, some r.1, none, some r.2, some successful.length⟩, 1)
    | .error e =>
        (⟨false, some ("Error generating summary: " ++ e), some e, none, none⟩, 1)

/-- YouTube metadata relevant to the similarity engine (id and title of
`get_video_info`; the remaining fields are presentation-only). -/
structure YTInfo where
  id : String
  title : String
deriving DecidableEq, Repr

/-- One per-video record as assembled by the batch processor and consumed by
the similarity analyzer: the download fields (`url`, `success`, `video_path`,
`info`, `error`) merged with the breakdown fields. -/
structure VideoResult where
  url : String
  success : Bool
  video_path : Option String
  info : Option YTInfo
  error : Option String
  breakdown_success : Bool
  breakdown_error : Option String
  frame_analyses : List (FrameResult (String × ℤ))
  video_summary : SummaryResult
  frames_extracted : ℕ
  frames_analyzed : ℕ
  total_tokens : ℕ
deriving DecidableEq, Repr

/-- One entry of `prepare_video_summaries` (similarity_analyzer.py lines
34-76): index (1-based over the raw input), url, title (defaulting to
"Unknown Title"), and the summary text (empty when the summary failed).
Fields used only inside prompts (duration, frame descriptions) are omitted. -/
structure VideoInfoSummary where
  video_index : ℕ
  url : String
  title : String
  summary : String
deriving DecidableEq, Repr

/-- `prepare_video_summaries`: keep only results with
`breakdown_success = true`, in input order. -/
def prepare_video_summaries (vrs : List VideoResult) : List VideoInfoSummary :=
  vrs.enum.filterMap (fun (iv : ℕ × VideoResult) =>
    if iv.2.breakdown_success then
      some ⟨iv.1 + 1, iv.2.url,
        (iv.2.info.map YTInfo.title).getD "Unknown Title",
        if iv.2.video_summary.success then iv.2.video_summary.summary.getD ""
        else ""⟩
    else none)

/-- The dictionary returned by `analyze_similarities_async`
(similarity_analyzer.py lines 78-129), with `none` for absent keys. -/
structure SimilarityResult where
  success : Bool
  analysis : Option String
  error : Option String
  tokens_used : Option ℕ
  videos_compared : Option ℕ
  videos_analyzed : Option ℕ
  video_titles : Option (List String)
deriving DecidableEq, Repr

/-- `analyze_similarities_async`: fewer than two prepared summaries fail
before any oracle call; otherwise exactly one holistic completion call is
made.  The second component counts the oracle calls. -/
def analyze_similarities_async (o : Except String (String × ℕ))
    (video_results : List VideoResult) : SimilarityResult × ℕ :=
  let summaries := prepare_video_summaries video_results
  if summaries.length < 2 then
    (⟨false, none, some "Need at least 2 successfully analyzed videos for comparison",
      none, none, some summaries.length, none⟩, 0)
  else
    match o with
    | .ok r =>
        (⟨true, some r.1, none, some r.2, some summaries.length, none,
          some (summaries.map VideoInfoSummary.title)⟩, 1)
    | .error e =>
        (⟨false, none, some e, none, some summaries.length, none, none⟩, 1)

lemma length_filterMap_enumFrom {β γ : Type} (p : β → Bool) (f : ℕ × β → γ) :
    ∀ (l : List β) (n : ℕ),
      ((l.enumFrom n).filterMap
          (fun x => if p x.2 then some (f x) else none)).length
        = (l.filter p).length := by
  intro l
  induction l with
  | nil => intro n; rfl
  | cons x xs ih =>
      intro n
      rw [List.enumFrom_cons, List.filterMap_cons, List.filter_cons]
      by_cases h : p x <;> simp [h, ih]

lemma prepare_video_summaries_length (vrs : List VideoResult) :
    (prepare_video_summaries vrs).length =
      (vrs.filter (fun r => r.breakdown_success)).length := by
  unfold prepare_video_summaries
  rw [List.enum_eq_enumFrom]
  apply length_filterMap_enumFrom

/-- One entry of the pairwise-comparison output
(similarity_analyzer.py lines 312-329). -/
structure PairComparison where
  video1_index : ℕ
  video2_index : ℕ
  video1_title : String
  video2_title : String
  comparison : String
  tokens_used : ℕ
deriving DecidableEq, Repr

/-- The nested loop index pairs of `generate_pairwise_comparisons`
(similarity_analyzer.py lines 280-281): `for i in range(n): for j in
range(i+1, n)`. -/
def pairIndices (n : ℕ) : List (ℕ × ℕ) :=
  (List.range n).flatMap
    (fun i => (List.range' (i + 1) (n - (i + 1))).map (fun j => (i, j)))

/-- Default used to model in-range Python list indexing `summaries[i]`. -/
def dfltVideoInfoSummary : VideoInfoSummary := ⟨0, "", "", ""⟩

/-- One pair's comparison (similarity_analyzer.py lines 282-329): one
independent oracle call; an exception is caught and becomes
`{comparison: "Error: <message>", tokens_used: 0}` for that pair only. -/
def mkPairComparison (o : ℕ × ℕ → Except String (String × ℕ))
    (summaries : List VideoInfoSummary) (ij : ℕ × ℕ) : PairComparison :=
  let video1 := summaries.getD ij.1 dfltVideoInfoSummary
  let video2 := summaries.getD ij.2 dfltVideoInfoSummary
  match o ij with
  | .ok r => ⟨ij.1 + 1, ij.2 + 1, video1.title, video2.title, r.1, r.2⟩
  | .error e => ⟨ij.1 + 1, ij.2 + 1, video1.title, video2.title, "Error: " ++ e, 0⟩

/-- The full comparison list, in nested ascending pair order. -/
def pairComparisonsList (o : ℕ × ℕ → Except String (String × ℕ))
    (summaries : List VideoInfoSummary) : List PairComparison :=
  (pairIndices summaries.length).map (mkPairComparison o summaries)

/-- The dictionary returned by `generate_pairwise_comparisons`
(similarity_analyzer.py lines 259-339), with `none` for absent keys. -/
structure PairwiseResult where
  success : Bool
  error : Option String
  pairwise_comparisons : Option (List PairComparison)
  total_pairs : Option ℕ
  total_tokens_used : Option ℕ
  videos_analyzed : Option ℕ
deriving DecidableEq, Repr

/-- `generate_pairwise_comparisons`: fewer than two prepared summaries fail
before any oracle call; otherwise one call per unordered pair.  The second
component counts the oracle calls. -/
def generate_pairwise_comparisons (o : ℕ × ℕ → Except String (String × ℕ))
    (video_results : List VideoResult) : PairwiseResult × ℕ :=
  let summaries := prepare_video_summaries video_results
  if summaries.length < 2 then
    (⟨false, some "Need at least 2 successfully analyzed videos for comparison",
      none, none, none, none⟩, 0)
  else
    let comparisons := pairComparisonsList o summaries
    (⟨true, none, some comparisons, some comparisons.length,
      some ((comparisons.map PairComparison.tokens_used).sum),
      some summaries.length⟩, comparisons.length)

/-! ### Helper lemmas about `pairIndices` -/

lemma mem_pairIndices {n : ℕ} {ij : ℕ × ℕ} :
    ij ∈ pairIndices n ↔ ij.1 < ij.2 ∧ ij.2 < n := by
  obtain ⟨i, j⟩ := ij
  unfold pairIndices
  simp only [List.mem_flatMap, List.mem_map, List.mem_range]
  constructor
  · rintro ⟨i', hi', j', hj', hpair⟩
    have h1 : i' = i := congrArg Prod.fst hpair
    have h2 : j' = j := congrArg Prod.snd hpair
    subst h1
    subst h2
    have hj2 := List.mem_range'_1.mp hj'
    constructor <;> omega
  · rintro ⟨h1, h2⟩
    exact ⟨i, by omega, j, List.mem_range'_1.mpr (by omega), rfl⟩

lemma sum_map_add_one {β : Type} (l : List β) (g : β → ℕ) :
    (l.map (fun i => g i + 1)).sum = (l.map g).sum + l.length := by
  induction l with
  | nil => rfl
  | cons x xs ih =>
      simp only [List.map_cons, List.sum_cons, ih, List.length_cons]
      omega

lemma pairIndices_length (n : ℕ) : (pairIndices n).length = n * (n - 1) / 2 := by
  have h2 : (pairIndices n).length * 2 = n * (n - 1) := by
    unfold pairIndices
    rw [List.length_flatMap]
    simp only [Function.comp_def]
    have hmap : (List.range n).map
        (fun i => ((List.range' (i + 1) (n - (i + 1))).map (fun j => (i, j))).length)
        = (List.range n).map (fun i => n - 1 - i) :=
      List.map_congr_left (fun i hi => by
        have := List.mem_range.mp hi
        simp only [List.length_map, List.length_range']
        omega)
    rw [hmap]
    have hb : ((List.range n).map (fun i => n - 1 - i)).sum
        = ∑ i in Finset.range n, (n - 1 - i) := rfl
    rw [hb, Finset.sum_range_reflect (fun i => i) n]
    exact Finset.sum_range_id_mul_two n
  omega

/-- Strict lexicographic order on index pairs: the "ascending nested order"
of the pairwise enumeration. -/
def pairLt (a b : ℕ × ℕ) : Prop :=
  a.1 < b.1 ∨ (a.1 = b.1 ∧ a.2 < b.2)

lemma pairwise_flatMap_of {β γ : Type} {R : γ → γ → Prop} (f : β → List γ) :
    ∀ (l : List β), (∀ a ∈ l, (f a).Pairwise R) →
      l.Pairwise (fun a b => ∀ x ∈ f a, ∀ y ∈ f b, R x y) →
      (l.flatMap f).Pairwise R := by
  intro l
  induction l with
  | nil => intro _ _; simp
  | cons a as ih =>
      intro h1 h2
      rw [List.flatMap_cons]
      apply List.pairwise_append.mpr
      refine ⟨h1 a (List.mem_cons_self a as),
        ih (fun b hb => h1 b (List.mem_cons_of_mem a hb)) (List.Pairwise.of_cons h2),
        ?_⟩
      intro x hx y hy
      obtain ⟨b, hb, hyb⟩ := List.mem_flatMap.mp hy
      exact (List.pairwise_cons.mp h2).1 b hb x hx y hyb

lemma pairIndices_sorted (n : ℕ) : (pairIndices n).Pairwise pairLt := by
  unfold pairIndices
  apply pairwise_flatMap_of
  · intro i _
    apply List.pairwise_map.mpr
    exact (List.pairwise_lt_range' _ _).imp (fun h => Or.inr ⟨rfl, h⟩)
  · refine (List.pairwise_lt_range n).imp ?_
    intro i j hij x hx y hy
    obtain ⟨jx, _, rfl⟩ := List.mem_map.mp hx
    obtain ⟨jy, _, rfl⟩ := List.mem_map.mp hy
    exact Or.inl hij

/-- C3: the insufficient-input checks happen before any oracle call — summary
generation over an input with no successful frame results returns a
`success: false` dictionary with an error message and makes zero oracle
calls, and both the holistic similarity analysis and the pairwise comparison
return `success: false` with an error message and make zero oracle calls
whenever fewer than two successfully processed videos are supplied. -/
theorem insufficient_input_no_oracle_calls :
    (∀ (α : Type) (o : Except String (String × ℕ)) (fas : List (FrameResult α)),
      fas.filter (fun r => r.success) = [] →
      generate_comprehensive_summary o fas =
        (⟨false, none, some "No successful frame analyses to summarize",
          none, none⟩, 0)) ∧
    (∀ (o : Except String (String × ℕ)) (vrs : List VideoResult),
      (vrs.filter (fun r => r.breakdown_success)).length < 2 →
      (analyze_similarities_async o vrs).1.success = false ∧
      (analyze_similarities_async o vrs).1.error.isSome = true ∧
      (analyze_similarities_async o vrs).2 = 0) ∧
    (∀ (o : ℕ × ℕ → Except String (String × ℕ)) (vrs : List VideoResult),
      (vrs.filter (fun r => r.breakdown_success)).length < 2 →
      (generate_pairwise_comparisons o vrs).1.success = false ∧
      (generate_pairwise_comparisons o vrs).1.error.isSome = true ∧
      (generate_pairwise_comparisons o vrs).2 = 0) := by
  refine ⟨?_, ?_, ?_⟩
  · intro α o fas h
    unfold generate_comprehensive_summary
    rw [if_pos (by simp [h])]
  · intro o vrs h
    have hp : (prepare_video_summaries vrs).length < 2 := by
      rw [prepare_video_summaries_length]
      exact h
    simp only [analyze_similarities_async]
    rw [if_pos hp]
    exact ⟨rfl, rfl, rfl⟩
  · intro o vrs h
    have hp : (prepare_video_summaries vrs).length < 2 := by
      rw [prepare_video_summaries_length]
      exact h
    simp only [generate_pairwise_comparisons]
    rw [if_pos hp]
    exact ⟨rfl, rfl, rfl⟩

/-- Holistic oracle used by witnesses: a successful completion (so zero-call
outcomes are visibly due to the precondition, not to oracle failure). -/
def sampleHolisticOracle : Except String (String × ℕ) := .ok ("holistic", 9)

/-- Pairwise oracle used by witnesses: fails on pair (0, 1), succeeds on
every other pair. -/
def samplePairOracle : ℕ × ℕ → Except String (String × ℕ) :=
  fun ij => if ij = (0, 1) then .error "rate limited" else .ok ("cmp", 3)

/-- C3 witness: an empty frame-result list and an empty video list. -/
theorem insufficient_input_no_oracle_calls_witness :
    @generate_comprehensive_summary ℕ sampleHolisticOracle [] =
      (⟨false, none, some "No successful frame analyses to summarize",
        none, none⟩, 0) ∧
    ((analyze_similarities_async sampleHolisticOracle []).1.success = false ∧
      (analyze_similarities_async sampleHolisticOracle []).1.error.isSome = true ∧
      (analyze_similarities_async sampleHolisticOracle []).2 = 0) ∧
    ((generate_pairwise_comparisons samplePairOracle []).1.success = false ∧
      (generate_pairwise_comparisons samplePairOracle []).1.error.isSome = true ∧
      (generate_pairwise_comparisons samplePairOracle []).2 = 0) :=
  ⟨insufficient_input_no_oracle_calls.1 ℕ sampleHolisticOracle [] rfl,
    insufficient_input_no_oracle_calls.2.1 sampleHolisticOracle [] (by decide),
    insufficient_input_no_oracle_calls.2.2 samplePairOracle [] (by decide)⟩

/-- C4: with at least two successfully processed videos the pairwise
comparison succeeds and returns exactly `n*(n-1)/2` comparisons (`n` being the
number of filtered videos, in the stable filtered order), enumerated over the
lexicographically ascending pairs `(i, j)` with `i < j < n`; an oracle error
for one pair produces, for that pair only, a comparison `"Error: <message>"`
with `tokens_used = 0`; and the reported total token usage is the sum of
`tokens_used` over all pairs. -/
theorem generate_pairwise_comparisons_spec
    (o : ℕ × ℕ → Except String (String × ℕ)) (vrs : List VideoResult)
    (h2 : 2 ≤ (vrs.filter (fun r => r.breakdown_success)).length) :
    (prepare_video_summaries vrs).length =
      (vrs.filter (fun r => r.breakdown_success)).length ∧
    generate_pairwise_comparisons o vrs =
      (⟨true, none, some (pairComparisonsList o (prepare_video_summaries vrs)),
        some (pairComparisonsList o (prepare_video_summaries vrs)).length,
        some (((pairComparisonsList o (prepare_video_summaries vrs)).map
          PairComparison.tokens_used).sum),
        some (prepare_video_summaries vrs).length⟩,
        (pairComparisonsList o (prepare_video_summaries vrs)).length) ∧
    (pairComparisonsList o (prepare_video_summaries vrs)).length =
      (prepare_video_summaries vrs).length *
        ((prepare_video_summaries vrs).length - 1) / 2 ∧
    (pairComparisonsList o (prepare_video_summaries vrs)).map
        (fun c => (c.video1_index, c.video2_index)) =
      (pairIndices (prepare_video_summaries vrs).length).map
        (fun ij => (ij.1 + 1, ij.2 + 1)) ∧
    (pairIndices (prepare_video_summaries vrs).length).Pairwise pairLt ∧
    (∀ ij : ℕ × ℕ, ij ∈ pairIndices (prepare_video_summaries vrs).length ↔
      ij.1 < ij.2 ∧ ij.2 < (prepare_video_summaries vrs).length) ∧
    (∀ ij e, o ij = .error e →
      mkPairComparison o (prepare_video_summaries vrs) ij =
        ⟨ij.1 + 1, ij.2 + 1,
          ((prepare_video_summaries vrs).getD ij.1 dfltVideoInfoSummary).title,
          ((prepare_video_summaries vrs).getD ij.2 dfltVideoInfoSummary).title,
          "Error: " ++ e, 0⟩) := by
  have hlen := prepare_video_summaries_length vrs
  have hn2 : ¬((prepare_video_summaries vrs).length < 2) := by omega
  refine ⟨hlen, ?_, ?_, ?_, pairIndices_sorted _, fun ij => mem_pairIndices, ?_⟩
  · simp only [generate_pairwise_comparisons]
    rw [if_neg hn2]
  · unfold pairComparisonsList
    rw [List.length_map]
    exact pairIndices_length _
  · unfold pairComparisonsList
    rw [List.map_map]
    apply List.map_congr_left
    intro ij _
    cases h : o ij <;> simp [Function.comp, mkPairComparison, h]
  · intro ij e h
    simp [mkPairComparison, h]

/-- A successful per-video summary dictionary, for witness records. -/
def sampleSummaryOk : SummaryResult := ⟨true, some "summary text", none, some 7, some 2⟩

/-- A fully successful video-processing record with the given url and title. -/
def sampleVideoResult (u t : String) : VideoResult :=
  ⟨u, true, some "path", some ⟨"id", t⟩, none, true, none, [], sampleSummaryOk, 2, 2, 14⟩

/-- Three successfully processed videos. -/
def sampleVideoResults : List VideoResult :=
  [sampleVideoResult "u1" "T1", sampleVideoResult "u2" "T2",
    sampleVideoResult "u3" "T3"]

/-- C4 witness: three successful videos and an oracle failing on pair (0, 1). -/
theorem generate_pairwise_comparisons_spec_witness :
    (prepare_video_summaries sampleVideoResults).length =
      (sampleVideoResults.filter (fun r => r.breakdown_success)).length ∧
    generate_pairwise_comparisons samplePairOracle sampleVideoResults =
      (⟨true, none,
        some (pairComparisonsList samplePairOracle
          (prepare_video_summaries sampleVideoResults)),
        some (pairComparisonsList samplePairOracle
          (prepare_video_summaries sampleVideoResults)).length,
        some (((pairComparisonsList samplePairOracle
          (prepare_video_summaries sampleVideoResults)).map
          PairComparison.tokens_used).sum),
        some (prepare_video_summaries sampleVideoResults).length⟩,
        (pairComparisonsList samplePairOracle
          (prepare_video_summaries sampleVideoResults)).length) ∧
    (pairComparisonsList samplePairOracle
        (prepare_video_summaries sampleVideoResults)).length =
      (prepare_video_summaries sampleVideoResults).length *
        ((prepare_video_summaries sampleVideoResults).length - 1) / 2 ∧
    (pairComparisonsList samplePairOracle
        (prepare_video_summaries sampleVideoResults)).map
        (fun c => (c.video1_index, c.video2_index)) =
      (pairIndices (prepare_video_summaries sampleVideoResults).length).map
        (fun ij => (ij.1 + 1, ij.2 + 1)) ∧
    (pairIndices (prepare_video_summaries sampleVideoResults).length).Pairwise pairLt ∧
    (∀ ij : ℕ × ℕ,
      ij ∈ pairIndices (prepare_video_summaries sampleVideoResults).length ↔
      ij.1 < ij.2 ∧ ij.2 < (prepare_video_summaries sampleVideoResults).length) ∧
    (∀ ij e, samplePairOracle ij = .error e →
      mkPairComparison samplePairOracle
          (prepare_video_summaries sampleVideoResults) ij =
        ⟨ij.1 + 1, ij.2 + 1,
          ((prepare_video_summaries sampleVideoResults).getD ij.1
            dfltVideoInfoSummary).title,
          ((prepare_video_summaries sampleVideoResults).getD ij.2
            dfltVideoInfoSummary).title,
          "Error: " ++ e, 0⟩) :=
  generate_pairwise_comparisons_spec samplePairOracle sampleVideoResults (by decide)

/-! ### C6: URL validation, batch download and the orchestrator
(youtube_utils.py, batch_processor.py) -/

/-- ASCII approximation of one regex word character. -/
def wordChar (c : Char) : Bool := c.isAlphanum || c == '_'

/-- Drop the prefix when present, else leave the characters unchanged (an
optional regex group such as `(?:www\.)?`). -/
def stripOpt (p s : List Char) : List Char :=
  if p.isPrefixOf s then s.drop p.length else s

/-- Match one pattern body: the literal prefix followed by at least one
word-or-hyphen character; trailing characters are unconstrained because
`re.match` only anchors the start. -/
def matchesBody (p s : List Char) : Bool :=
  p.isPrefixOf s &&
    (match s.drop p.length with
      | [] => false
      | c :: _ => wordChar c || c == '-')

/-- `is_valid_youtube_url` (youtube_utils.py lines 127-145): `re.match` of
five patterns, each `(?:https?://)?(?:www\.)?<body>[\w-]+`.  The bodies all
start with a `y`, so greedily stripping the optional scheme and `www.` first
is equivalent to the per-pattern optional groups. -/
def is_valid_youtube_url (url : String) : Bool :=
  let cs := url.data
  let s1 :=
    if ("https://".data).isPrefixOf cs then cs.drop 8
    else if ("http://".data).isPrefixOf cs then cs.drop 7
    else cs
  let s2 := stripOpt ("www.".data) s1
  [("youtube.com/watch?v=".data), ("youtu.be/".data), ("youtube.com/embed/".data),
    ("youtube.com/v/".data), ("youtube.com/shorts/".data)].any
    (fun p => matchesBody p s2)

/-- The external collaborators of the batch pipeline: metadata lookup and
download (yt-dlp), the decoder model for each downloaded file path, and the
inference oracles (per frame image, per video summary, one holistic call,
one call per video pair). -/
structure BatchEnv where
  info : String → Option YTInfo
  download : String → Option String
  videoOf : String → Video
  frameOracle : String × ℤ → Except String (String × ℕ)
  summaryOracle : String → Except String (String × ℕ)
  holisticOracle : Except String (String × ℕ)
  pairOracle : ℕ × ℕ → Except String (String × ℕ)

/-- One entry of the list returned by `download_multiple_videos`
(youtube_utils.py lines 276-305); the `duration_limited_to` field is
presentation-only and omitted. -/
structure DownloadResult where
  url : String
  success : Bool
  video_path : Option String
  info : Option YTInfo
  error : Option String
deriving DecidableEq, Repr

/-- `download_multiple_videos` (youtube_utils.py lines 249-315): validate the
URLs (invalid ones are only printed as a warning — they get no result
entry), cap the valid list at `max_videos`, then for each URL record an info
failure, a download failure, or a success. -/
def download_multiple_videos (env : BatchEnv) (urls : List String)
    (max_videos : ℕ) : List DownloadResult :=
  let valid_urls := (urls.filter is_valid_youtube_url).take max_videos
  valid_urls.map (fun url =>
    match env.info url with
    | none => ⟨url, false, none, none, some "Failed to get video info"⟩
    | some info =>
        match env.download url with
        | some p => ⟨url, true, some p, some info, none⟩
        | none => ⟨url, false, none, some info, some "Download failed"⟩)

/-- The Python message attached to an exception caught as `str(e)`. -/
def pyErrorMessage : PyError → String
  | .valueError m => m
  | .zeroDivisionError => "division by zero"

/-- `process_single_video` (batch_processor.py lines 145-269), invoked only
on successful downloads: validate the file, read its metadata (a zero fps
raises `ZeroDivisionError` inside `get_video_info`, caught by the
surrounding `except` into a breakdown failure), extract fixed frames (zero
frames is a breakdown failure), analyze them in batches, summarize, and
count tokens.  Directory handling and JSON persistence are omitted. -/
def process_single_video (env : BatchEnv) (dr : DownloadResult)
    (max_frames : ℤ) (max_duration : ℚ) (batch_size : ℤ) : VideoResult :=
  let vp := dr.video_path.getD ""
  let v := env.videoOf vp
  let base : VideoResult :=
    ⟨dr.url, dr.success, dr.video_path, dr.info, dr.error, false, none, [],
      ⟨false, none, none, none, none⟩, 0, 0, 0⟩
  if v.openOk = false then
    { base with breakdown_error := some "Video file validation failed" }
  else if v.fps = 0 then
    { base with breakdown_error := some "division by zero" }
  else
    match (extract_fixed_frames v max_frames max_duration).result with
    | .error e => { base with breakdown_error := some (pyErrorMessage e) }
    | .ok frames =>
        if frames.isEmpty then
          { base with breakdown_error := some "No frames were extracted" }
        else
          let frame_data := frames.map (fun f => (f.timestamp, (vp, f.frameIndex)))
          match analyze_multiple_frames_async env.frameOracle frame_data batch_size with
          | .error e => { base with breakdown_error := some (pyErrorMessage e) }
          | .ok frame_analyses =>
              let video_summary :=
                (generate_comprehensive_summary (env.summaryOracle vp) frame_analyses).1
              let successful := (frame_analyses.filter (fun r => r.success)).length
              let frame_tokens := ((frame_analyses.filter (fun r => r.success)).map
                (fun r => r.tokens_used.getD 0)).sum
              let total := frame_tokens +
                (if video_summary.success then video_summary.tokens_used.getD 0 else 0)
              ⟨dr.url, dr.success, dr.video_path, dr.info, dr.error, true, none,
                frame_analyses, video_summary, frames.length, successful, total⟩

/-- The combined similarity dictionary of `analyze_video_similarities`
(batch_processor.py lines 271-311). -/
structure CombinedSimilarity where
  comprehensive_analysis : SimilarityResult
  pairwise_comparisons : PairwiseResult
  total_tokens_used : ℕ
deriving DecidableEq, Repr

/-- `analyze_video_similarities`: the holistic analysis, the pairwise
comparisons, and their summed token usage (`.get(..., 0)` on absent keys). -/
def analyze_video_similarities (env : BatchEnv)
    (video_results : List VideoResult) : CombinedSimilarity :=
  let sim := (analyze_similarities_async env.holisticOracle video_results).1
  let pw := (generate_pairwise_comparisons env.pairOracle video_results).1
  ⟨sim, pw, sim.tokens_used.getD 0 + pw.total_tokens_used.getD 0⟩

/-- The final report of `generate_final_report` (batch_processor.py lines
313-363); timing metadata is omitted. -/
structure FinalReport where
  total_urls_provided : ℕ
  successful_downloads : ℕ
  successful_analyses : ℕ
  total_frames_extracted : ℕ
  total_frames_analyzed : ℕ
  total_tokens_used : ℕ
  estimated_cost_usd : ℚ
  download_results : List DownloadResult
  video_analyses : List VideoResult
  similarity_analysis : CombinedSimilarity
  video_titles : List String
deriving DecidableEq, Repr

/-- `generate_final_report`: aggregate statistics over the
breakdown-successful videos plus the similarity token total; the cost is the
flat `total_tokens * 0.000015` approximation. -/
def generate_final_report (download_results : List DownloadResult)
    (video_results : List VideoResult) (similarity : CombinedSimilarity) :
    FinalReport :=
  let successful_videos := video_results.filter (fun r => r.breakdown_success)
  let total_tokens := (successful_videos.map (fun r => r.total_tokens)).sum +
    similarity.total_tokens_used
  ⟨download_results.length,
    (download_results.filter (fun r => r.success)).length,
    successful_videos.length,
    (successful_videos.map (fun r => r.frames_extracted)).sum,
    (successful_videos.map (fun r => r.frames_analyzed)).sum,
    total_tokens,
    (total_tokens : ℚ) * (15 / 1000000),
    download_results, video_results, similarity,
    successful_videos.map (fun r => (r.info.map YTInfo.title).getD "Unknown")⟩

/-- Outcome of `process_youtube_urls` (batch_processor.py lines 59-143): the
early `{success: false}` dictionary when nothing downloaded, or the final
report. -/
inductive BatchOutcome where
  | noDownloads (error : String) (download_results : List DownloadResult)
  | report (r : FinalReport)
deriving DecidableEq, Repr

/-- `process_youtube_urls`: download everything, abort only when no download
succeeded, process each successful download in order, then run the
similarity engine once over all records and assemble the report. -/
def process_youtube_urls (env : BatchEnv) (urls : List String)
    (max_videos : ℕ) (max_frames : ℤ) (duration_seconds : ℚ)
    (batch_size : ℤ) : BatchOutcome :=
  let download_results := download_multiple_videos env urls max_videos
  let successful_downloads := download_results.filter (fun r => r.success)
  if successful_downloads.isEmpty then
    .noDownloads "No videos were successfully downloaded" download_results
  else
    let video_results := successful_downloads.map
      (fun dr => process_single_video env dr max_frames duration_seconds batch_size)
    let similarity := analyze_video_similarities env video_results
    .report (generate_final_report download_results video_results similarity)

/-- The per-video records the orchestrator builds from the successful
downloads (the `video_results` of `process_youtube_urls`). -/
def batchVideoResults (env : BatchEnv) (urls : List String) (max_videos : ℕ)
    (max_frames : ℤ) (duration_seconds : ℚ) (batch_size : ℤ) :
    List VideoResult :=
  ((download_multiple_videos env urls max_videos).filter (fun r => r.success)).map
    (fun dr => process_single_video env dr max_frames duration_seconds batch_size)

/-- A valid watch URL used in batch samples. -/
def goodUrl1 : String := "https://www.youtube.com/watch?v=abc123"

/-- A valid short URL used in batch samples. -/
def goodUrl2 : String := "https://youtu.be/def456"

/-- Decoder model for the batch samples: 1 fps, 3 frames, everything works. -/
def sampleVideo : Video := ⟨true, 1, 3, fun _ => true, fun _ => true⟩

/-- A batch environment in which both sample URLs resolve and download and
all oracle calls succeed. -/
def sampleBatchEnv : BatchEnv :=
  ⟨fun u => if u = goodUrl1 then some ⟨"abc123", "Title One"⟩
      else if u = goodUrl2 then some ⟨"def456", "Title Two"⟩ else none,
    fun u => if u = goodUrl1 then some "p1"
      else if u = goodUrl2 then some "p2" else none,
    fun _ => sampleVideo,
    fun _ => .ok ("frame description", 5),
    fun _ => .ok ("video summary", 7),
    .ok ("holistic", 9),
    fun _ => .ok ("cmp", 3)⟩

/-- C6 counterexample: an invalid URL in the input list gets no entry at all
in the download-results list — it is filtered out with only a printed
warning, so no failure record with an error message exists for it. -/
theorem invalid_url_dropped_cex :
    is_valid_youtube_url "not-a-video" = false ∧
    (download_multiple_videos sampleBatchEnv ["not-a-video", goodUrl1] 10).map
      (fun r => r.url) = [goodUrl1] ∧
    "not-a-video" ∉ (download_multiple_videos sampleBatchEnv
      ["not-a-video", goodUrl1] 10).map (fun r => r.url) := by
  refine ⟨by decide, by decide, by decide⟩

/-- C6 (amended): the download-results list contains exactly one entry, in
order, for every VALID URL of the input (up to the video limit applied after
validity filtering); invalid URLs are dropped without a record.  Failure
records (info lookup or download failure) carry `success: false` with a
non-null error message, success records carry no error, and a failure does
not abort the batch: as long as one download succeeded the orchestrator
still builds one record per successful download and runs the similarity
engine over all of them, and with at least two breakdown-successful videos
the pairwise comparison succeeds and the holistic comparison reaches the
oracle (succeeding exactly when the oracle does). -/
theorem batch_no_valid_video_dropped (env : BatchEnv) (urls : List String)
    (max_videos : ℕ) (max_frames : ℤ) (duration_seconds : ℚ) (batch_size : ℤ) :
    ((download_multiple_videos env urls max_videos).map (fun r => r.url) =
      (urls.filter is_valid_youtube_url).take max_videos) ∧
    (∀ r ∈ download_multiple_videos env urls max_videos,
      r.success = true ↔ r.error = none) ∧
    ((download_multiple_videos env urls max_videos).filter
        (fun r => r.success) ≠ [] →
      process_youtube_urls env urls max_videos max_frames duration_seconds
          batch_size =
        .report (generate_final_report
          (download_multiple_videos env urls max_videos)
          (batchVideoResults env urls max_videos max_frames duration_seconds
            batch_size)
          (analyze_video_similarities env
            (batchVideoResults env urls max_videos max_frames duration_seconds
              batch_size)))) ∧
    (2 ≤ ((batchVideoResults env urls max_videos max_frames duration_seconds
        batch_size).filter (fun r => r.breakdown_success)).length →
      (analyze_video_similarities env
        (batchVideoResults env urls max_videos max_frames duration_seconds
          batch_size)).pairwise_comparisons.success = true ∧
      ((analyze_video_similarities env
        (batchVideoResults env urls max_videos max_frames duration_seconds
          batch_size)).comprehensive_analysis.success = true ↔
        env.holisticOracle.isOk = true)) := by
  refine ⟨?_, ?_, ?_, ?_⟩
  · unfold download_multiple_videos
    rw [List.map_map]
    have h : ∀ u ∈ (urls.filter is_valid_youtube_url).take max_videos,
        ((fun (r : DownloadResult) => r.url) ∘ fun url =>
          match env.info url with
          | none => (⟨url, false, none, none, some "Failed to get video info"⟩ :
              DownloadResult)
          | some info =>
              match env.download url with
              | some p => ⟨url, true, some p, some info, none⟩
              | none => ⟨url, false, none, some info, some "Download failed"⟩) u
          = u := by
      intro u _
      simp only [Function.comp_apply]
      cases env.info u
      · rfl
      · cases env.download u <;> rfl
    rw [List.map_congr_left h]
    simp
  · intro r hr
    obtain ⟨u, _, rfl⟩ := List.mem_map.mp hr
    cases env.info u
    · simp
    · cases env.download u <;> simp
  · intro h
    unfold process_youtube_urls
    rw [if_neg (by simp only [List.isEmpty_iff]; exact h)]
    rfl
  · intro h2
    have hp : ¬((prepare_video_summaries (batchVideoResults env urls max_videos
        max_frames duration_seconds batch_size)).length < 2) := by
      rw [prepare_video_summaries_length]
      omega
    constructor
    · unfold analyze_video_similarities
      simp only [generate_pairwise_comparisons]
      rw [if_neg hp]
    · unfold analyze_video_similarities
      simp only [analyze_similarities_async]
      rw [if_neg hp]
      cases env.holisticOracle <;> simp [Except.isOk, Except.toBool]

/-- C6 witness: the amended statement instantiated on the sample environment
with one invalid and two valid URLs. -/
theorem batch_no_valid_video_dropped_witness :
    ((download_multiple_videos sampleBatchEnv [goodUrl1, "not-a-video", goodUrl2]
        10).map (fun r => r.url) =
      (([goodUrl1, "not-a-video", goodUrl2].filter is_valid_youtube_url)).take 10) ∧
    (∀ r ∈ download_multiple_videos sampleBatchEnv
        [goodUrl1, "not-a-video", goodUrl2] 10,
      r.success = true ↔ r.error = none) ∧
    ((download_multiple_videos sampleBatchEnv [goodUrl1, "not-a-video", goodUrl2]
        10).filter (fun r => r.success) ≠ [] →
      process_youtube_urls sampleBatchEnv [goodUrl1, "not-a-video", goodUrl2]
          10 3 20 2 =
        .report (generate_final_report
          (download_multiple_videos sampleBatchEnv
            [goodUrl1, "not-a-video", goodUrl2] 10)
          (batchVideoResults sampleBatchEnv [goodUrl1, "not-a-video", goodUrl2]
            10 3 20 2)
          (analyze_video_similarities sampleBatchEnv
            (batchVideoResults sampleBatchEnv [goodUrl1, "not-a-video", goodUrl2]
              10 3 20 2)))) ∧
    (2 ≤ ((batchVideoResults sampleBatchEnv [goodUrl1, "not-a-video", goodUrl2]
        10 3 20 2).filter (fun r => r.breakdown_success)).length →
      (analyze_video_similarities sampleBatchEnv
        (batchVideoResults sampleBatchEnv [goodUrl1, "not-a-video", goodUrl2]
          10 3 20 2)).pairwise_comparisons.success = true ∧
      ((analyze_video_similarities sampleBatchEnv
        (batchVideoResults sampleBatchEnv [goodUrl1, "not-a-video", goodUrl2]
          10 3 20 2)).comprehensive_analysis.success = true ↔
        sampleBatchEnv.holisticOracle.isOk = true)) :=
  batch_no_valid_video_dropped sampleBatchEnv [goodUrl1, "not-a-video", goodUrl2]
    10 3 20 2
